import Mathlib

/-!
Verification development for the StockScreen technical screening engine
(`stock_screener.py`).

The Python code operates on pandas Series/DataFrames of float values.  The
shallow embedding below models:
  * a numeric column as a `List ℚ` (one entry per bar, oldest first);
  * a pandas rolling/diff series as a total function `ℕ → Option ℚ` from the
    bar index to its value, where `none` stands for pandas `NaN` (the value a
    rolling window produces before the window is complete, and the value
    `diff()` produces at index 0);
  * float comparisons against `NaN`, which are `False` in Python, as
    comparisons on `Option ℚ` that return `false` when either side is `none`;
  * a network fetch that may raise as an `Except Unit` value supplied as
    input (`.error ()` models the fetch raising, `.ok data` a successful
    response; `.ok []` an empty frame);
  * Python's `try/except` with a caught exception as the `Except Unit` monad.
Floating-point rounding is not modelled (the spec treats values as exact
reals); ℚ is used throughout.
-/

/-- Mean of the non-`none` values of a list, `none` when every value is
`none` — the semantics of pandas `Series.mean()` (which skips `NaN` and
returns `NaN` for an all-`NaN`/empty selection). -/
def meanSkip (xs : List (Option ℚ)) : Option ℚ :=
  let vs := xs.filterMap id
  if vs.isEmpty then none else some (vs.sum / vs.length)

/-- Arithmetic mean of the `n` values of `closes` ending at index `i`
(the value of `Series.rolling(n).mean()` at a defined index). -/
def windowMean (n : ℕ) (closes : List ℚ) (i : ℕ) : ℚ :=
  ((closes.take (i + 1)).drop (i + 1 - n)).sum / n

/-- `closes.rolling(n).mean()` at index `i`: defined exactly when the
window is complete (`n ≤ i+1`) and `i` is in range. -/
def maO (n : ℕ) (closes : List ℚ) (i : ℕ) : Option ℚ :=
  if n ≤ i + 1 ∧ i < closes.length then some (windowMean n closes i) else none

/-- `closes.rolling(n).mean().diff()` at index `i`: the first difference of
the rolling mean, `NaN` at index 0 and wherever either operand is `NaN`. -/
def slopeO (n : ℕ) (closes : List ℚ) (i : ℕ) : Option ℚ :=
  if i = 0 then none
  else
    match maO n closes (i - 1), maO n closes i with
    | some a, some b => some (b - a)
    | _, _ => none

/-- Python float `>` on possibly-`NaN` operands: any comparison with `NaN`
is `False`. -/
def optGt : Option ℚ → Option ℚ → Bool
  | some a, some b => decide (b < a)
  | _, _ => false

/-- Python float `≤` on possibly-`NaN` operands. -/
def optLe : Option ℚ → Option ℚ → Bool
  | some a, some b => decide (a ≤ b)
  | _, _ => false

/-- Python float `<` on possibly-`NaN` operands. -/
def optLt : Option ℚ → Option ℚ → Bool
  | some a, some b => decide (a < b)
  | _, _ => false

/-- The value of `series.iloc[-3:-1].mean()` for a pandas series of length
`L` whose entry at index `i` is `f i`: Python slicing `[-3:-1]` selects the
indices `[max (L-3) 0, L-1)`, and `.mean()` skips `NaN`.
`(List.range (L-1)).drop (L-3)` is exactly that index range (ℕ subtraction
clamps at 0 just as Python clamps negative slice endpoints). -/
def priorSliceMean (f : ℕ → Option ℚ) (L : ℕ) : Option ℚ :=
  meanSkip (((List.range (L - 1)).drop (L - 3)).map f)

/-- `is_turning_up` of `check_ma_trend` (stock_screener.py:875-887), with
`lookback_days = 3`: for each of MA5/MA10/MA20, the latest slope is `> 0`
and the mean of the slopes over the two prior bars is `≤ 0`. -/
def ma_trend_turning (closes : List ℚ) : Bool :=
  let L := closes.length
  optGt (slopeO 5 closes (L - 1)) (some 0) &&
    optLe (priorSliceMean (slopeO 5 closes) L) (some 0) &&
  (optGt (slopeO 10 closes (L - 1)) (some 0) &&
    optLe (priorSliceMean (slopeO 10 closes) L) (some 0)) &&
  (optGt (slopeO 20 closes (L - 1)) (some 0) &&
    optLe (priorSliceMean (slopeO 20 closes) L) (some 0))

/-- `is_bullish` of `check_ma_trend` (stock_screener.py:890-898):
`ma5 > ma10 > ma20 > ma30` at the last bar (a Python chained comparison,
i.e. the conjunction of the three adjacent comparisons) and all four latest
slopes `> 0`. -/
def ma_trend_bullish (closes : List ℚ) : Bool :=
  let L := closes.length
  (optGt (maO 5 closes (L - 1)) (maO 10 closes (L - 1)) &&
   optGt (maO 10 closes (L - 1)) (maO 20 closes (L - 1)) &&
   optGt (maO 20 closes (L - 1)) (maO 30 closes (L - 1))) &&
  optGt (slopeO 5 closes (L - 1)) (some 0) &&
  optGt (slopeO 10 closes (L - 1)) (some 0) &&
  optGt (slopeO 20 closes (L - 1)) (some 0) &&
  optGt (slopeO 30 closes (L - 1)) (some 0)

/-- `StockScreener.check_ma_trend` (stock_screener.py:839-909) applied to a
successfully fetched history, represented by its close column.  An empty
frame returns `(False, None)`; otherwise the function returns
`(is_turning_up or is_bullish, latest_row)`, whose second component we
model by the last close (`hist_data.iloc[-1]` of a non-empty frame is never
`None`).  The per-symbol cache is not modelled (it only memoises this
computation). -/
def check_ma_trend (closes : List ℚ) : Bool × Option ℚ :=
  if closes.isEmpty then (false, none)
  else (ma_trend_turning closes || ma_trend_bullish closes, closes.getLast?)

/-- Claim-side slope of MA(n) at index `i` (total: the claims only use it at
indices where the window is complete). -/
def specSlope (n : ℕ) (closes : List ℚ) (i : ℕ) : ℚ :=
  windowMean n closes i - windowMean n closes (i - 1)

/-- Claim-side turning-up condition, transcribed from the claim C1 wording:
for each of MA5, MA10 and MA20 the most recent slope is `> 0` and the mean
of the slopes over the prior 2 bars (lookback 3, excluding the most recent)
is `≤ 0`. -/
def specTurningUp (closes : List ℚ) : Prop :=
  let L := closes.length
  (0 < specSlope 5 closes (L - 1) ∧
    (specSlope 5 closes (L - 3) + specSlope 5 closes (L - 2)) / 2 ≤ 0) ∧
  (0 < specSlope 10 closes (L - 1) ∧
    (specSlope 10 closes (L - 3) + specSlope 10 closes (L - 2)) / 2 ≤ 0) ∧
  (0 < specSlope 20 closes (L - 1) ∧
    (specSlope 20 closes (L - 3) + specSlope 20 closes (L - 2)) / 2 ≤ 0)

/-- Claim-side bullish-alignment condition, transcribed from the claim C1
wording: `MA5 > MA10 > MA20 > MA30` strictly at the last bar and the most
recent slopes of all four averages `> 0`. -/
def specBullish (closes : List ℚ) : Prop :=
  let L := closes.length
  (windowMean 10 closes (L - 1) < windowMean 5 closes (L - 1) ∧
   windowMean 20 closes (L - 1) < windowMean 10 closes (L - 1) ∧
   windowMean 30 closes (L - 1) < windowMean 20 closes (L - 1)) ∧
  0 < specSlope 5 closes (L - 1) ∧ 0 < specSlope 10 closes (L - 1) ∧
  0 < specSlope 20 closes (L - 1) ∧ 0 < specSlope 30 closes (L - 1)

lemma maO_eq (n : ℕ) (closes : List ℚ) (i : ℕ) (h1 : n ≤ i + 1) (h2 : i < closes.length) :
    maO n closes i = some (windowMean n closes i) := by
  simp [maO, h1, h2]

lemma slopeO_eq (n : ℕ) (closes : List ℚ) (i : ℕ) (h0 : 0 < i) (h1 : n ≤ i)
    (h2 : i < closes.length) : slopeO n closes i = some (specSlope n closes i) := by
  unfold slopeO
  rw [if_neg (by omega)]
  rw [maO_eq n closes (i - 1) (by omega) (by omega), maO_eq n closes i (by omega) h2]
  rfl

lemma range_drop_pair (L : ℕ) (h : 3 ≤ L) :
    (List.range (L - 1)).drop (L - 3) = [L - 3, L - 2] := by
  rw [List.drop_eq_getElem_cons (by simp only [List.length_range]; omega)]
  rw [show L - 3 + 1 = L - 2 from by omega]
  rw [List.drop_eq_getElem_cons (by simp only [List.length_range]; omega)]
  rw [show L - 2 + 1 = L - 1 from by omega]
  rw [List.drop_eq_nil_of_le (by simp only [List.length_range]; omega)]
  simp only [List.getElem_range]

lemma priorSliceMean_eq (f : ℕ → Option ℚ) (L : ℕ) (hL : 3 ≤ L) (a b : ℚ)
    (h1 : f (L - 3) = some a) (h2 : f (L - 2) = some b) :
    priorSliceMean f L = some ((a + b) / 2) := by
  unfold priorSliceMean
  rw [range_drop_pair L hL]
  simp [meanSkip, h1, h2]

set_option maxHeartbeats 1000000 in
/-- C1: for every historical series with at least 31 bars, `check_ma_trend`
returns `isPositive = turning-up OR bullish-alignment`, where turning-up
holds iff for each of MA5, MA10 and MA20 the most recent slope is `> 0` and
the mean of the slopes over the prior 2 bars (lookback 3, excluding the most
recent) is `≤ 0`, and bullish-alignment holds iff `MA5 > MA10 > MA20 > MA30`
strictly at the last bar and the most recent slopes of all four averages
are `> 0`. -/
theorem check_ma_trend_spec (closes : List ℚ) (h : 31 ≤ closes.length) :
    ((check_ma_trend closes).1 = true ↔ specTurningUp closes ∨ specBullish closes) := by
  have hne : closes.isEmpty = false := by
    rw [List.isEmpty_eq_false]
    intro he
    rw [he] at h
    simp at h
  have s5l := slopeO_eq 5 closes (closes.length - 1) (by omega) (by omega) (by omega)
  have s10l := slopeO_eq 10 closes (closes.length - 1) (by omega) (by omega) (by omega)
  have s20l := slopeO_eq 20 closes (closes.length - 1) (by omega) (by omega) (by omega)
  have s30l := slopeO_eq 30 closes (closes.length - 1) (by omega) (by omega) (by omega)
  have p5 := priorSliceMean_eq (slopeO 5 closes) closes.length (by omega) _ _
    (slopeO_eq 5 closes (closes.length - 3) (by omega) (by omega) (by omega))
    (slopeO_eq 5 closes (closes.length - 2) (by omega) (by omega) (by omega))
  have p10 := priorSliceMean_eq (slopeO 10 closes) closes.length (by omega) _ _
    (slopeO_eq 10 closes (closes.length - 3) (by omega) (by omega) (by omega))
    (slopeO_eq 10 closes (closes.length - 2) (by omega) (by omega) (by omega))
  have p20 := priorSliceMean_eq (slopeO 20 closes) closes.length (by omega) _ _
    (slopeO_eq 20 closes (closes.length - 3) (by omega) (by omega) (by omega))
    (slopeO_eq 20 closes (closes.length - 2) (by omega) (by omega) (by omega))
  have m5 := maO_eq 5 closes (closes.length - 1) (by omega) (by omega)
  have m10 := maO_eq 10 closes (closes.length - 1) (by omega) (by omega)
  have m20 := maO_eq 20 closes (closes.length - 1) (by omega) (by omega)
  have m30 := maO_eq 30 closes (closes.length - 1) (by omega) (by omega)
  simp only [check_ma_trend, hne, Bool.false_eq_true, if_false,
    ma_trend_turning, ma_trend_bullish, s5l, s10l, s20l, s30l, p5, p10, p20,
    m5, m10, m20, m30, optGt, optLe, Bool.or_eq_true, Bool.and_eq_true,
    decide_eq_true_eq, specTurningUp, specBullish]
  tauto

def c1Closes : List ℚ := List.replicate 31 1

/-- Witness for `check_ma_trend_spec` at a concrete 31-bar series. -/
theorem check_ma_trend_spec_witness :
    31 ≤ c1Closes.length ∧
      ((check_ma_trend c1Closes).1 = true ↔ specTurningUp c1Closes ∨ specBullish c1Closes) :=
  ⟨by decide, check_ma_trend_spec c1Closes (by decide)⟩

/-- C2 counterexample: a non-empty 5-bar series (fewer than 31 bars) for
which `check_ma_trend` does NOT return `(False, None)` — the second
component is the latest bar, not `None`. -/
theorem check_ma_trend_short_counterexample :
    (([1, 1, 1, 1, 1] : List ℚ).length < 31) ∧
      check_ma_trend [1, 1, 1, 1, 1] ≠ (false, none) := by
  refine ⟨by decide, fun h => ?_⟩
  have h2 := congrArg Prod.snd h
  simp [check_ma_trend] at h2

/-- C2 (amended): for a series shorter than 31 bars `check_ma_trend` does
not raise; it returns `(False, None)` exactly when the series is empty —
for a non-empty short series the second component is the latest bar — and
the bullish-alignment branch can never fire (MA30's slope is undefined). -/
theorem check_ma_trend_short (closes : List ℚ) (h : closes.length < 31) :
    (check_ma_trend closes).2 = closes.getLast? ∧
    ma_trend_bullish closes = false ∧
    (check_ma_trend closes = (false, none) ↔ closes = []) := by
  have hbull : ma_trend_bullish closes = false := by
    have h30 : slopeO 30 closes (closes.length - 1) = none := by
      unfold slopeO
      split
      · rfl
      · have hm : maO 30 closes (closes.length - 1 - 1) = none := by
          unfold maO
          rw [if_neg (by omega)]
        rw [hm]
    unfold ma_trend_bullish
    simp only [h30, optGt, Bool.and_false]
  refine ⟨?_, hbull, ?_⟩
  · unfold check_ma_trend
    split
    · rename_i he
      rw [List.isEmpty_iff] at he
      subst he
      rfl
    · rfl
  · constructor
    · intro he
      have h2 := congrArg Prod.snd he
      unfold check_ma_trend at h2
      by_cases hc : closes = []
      · exact hc
      · rw [if_neg (by simpa [List.isEmpty_iff] using hc)] at h2
        simp only [List.getLast?_eq_none_iff] at h2
        exact h2
    · intro he
      subst he
      rfl

/-- Witness for `check_ma_trend_short` at a concrete 1-bar series. -/
theorem check_ma_trend_short_witness :
    (([2] : List ℚ).length < 31) ∧
      ((check_ma_trend [2]).2 = ([2] : List ℚ).getLast? ∧
        ma_trend_bullish [2] = false ∧
        (check_ma_trend [2] = (false, none) ↔ ([2] : List ℚ) = [])) :=
  ⟨by decide, check_ma_trend_short [2] (by decide)⟩

/-- Price-position classification of `get_price_position`
(stock_screener.py:1211-1243). -/
inductive PricePos
  | low      -- 低位
  | mid      -- 中位
  | high     -- 高位
  | unknown  -- 未知
deriving DecidableEq

/-- pandas `Series.max()` of a non-empty column (the `[]` case is never
reached by callers, which guard on emptiness first). -/
def listMax : List ℚ → ℚ
  | [] => 0
  | c :: cs => cs.foldl max c

/-- pandas `Series.min()` of a non-empty column. -/
def listMin : List ℚ → ℚ
  | [] => 0
  | c :: cs => cs.foldl min c

/-- `get_price_position` (stock_screener.py:1211-1243): classify
`current_price` inside the fetched 120-day close window.  A failed fetch is
caught (`except` → "未知"), an empty frame and a zero price range also give
"未知"; otherwise `(current - min) / range * 100` is classified as 低位
(`< 30`), 高位 (`> 70`) or 中位. -/
def get_price_position (fetch : Except Unit (List ℚ)) (current_price : ℚ) : PricePos :=
  match fetch with
  | .error _ => .unknown
  | .ok [] => .unknown
  | .ok closes =>
    let price_max := listMax closes
    let price_min := listMin closes
    let price_range := price_max - price_min
    if price_range = 0 then .unknown
    else
      let position := (current_price - price_min) / price_range * 100
      if position < 30 then .low
      else if 70 < position then .high
      else .mid

/-- One snapshot row as consumed by `analyze_trading_signals`
(stock_screener.py:1247-1257): 最新价, 涨跌幅, 量比, 换手率. -/
structure SignalRow where
  code : String
  name : String
  price : ℚ
  price_change : ℚ
  volume_ratio : ℚ
  turnover : ℚ
deriving DecidableEq

/-- The scoring outcome appended per row by `analyze_trading_signals`
(stock_screener.py:1292-1303): 位置, 评分, 风险分, 建议. -/
structure SignalResult where
  position : PricePos
  rating_score : ℕ
  risk_score : ℕ
  final_advice : String
deriving DecidableEq

/-- The per-row body of `StockScreener.analyze_trading_signals`
(stock_screener.py:1249-1303).  `fetch` is the 120-day history fetch made
by the inner `get_price_position`.  The `elif position == "高位"` branch is
modelled by a plain `if`: `position` is a single enum value, so the
preceding `position == "低位"` test being true excludes it. -/
def analyze_trading_signal_row (fetch : Except Unit (List ℚ)) (row : SignalRow) :
    SignalResult :=
  let position := get_price_position fetch row.price
  let rating_score : ℕ := 0
  let risk_score : ℕ := 0
  let rating_score := if 5 < row.price_change then rating_score + 2
    else if 2 < row.price_change then rating_score + 1 else rating_score
  let rating_score := if 2 < row.volume_ratio then rating_score + 1 else rating_score
  let rating_score := if 5 < row.turnover then rating_score + 1 else rating_score
  let rating_score := if position = PricePos.low then rating_score + 2 else rating_score
  let risk_score := if position = PricePos.high then risk_score + 2 else risk_score
  let final_advice :=
    if 4 ≤ rating_score ∧ risk_score ≤ 1 then "建议买入"
    else if 2 ≤ rating_score ∧ risk_score ≤ 2 then "可以关注"
    else if 3 ≤ risk_score then "注意风险"
    else "建议观望"
  ⟨position, rating_score, risk_score, final_advice⟩

/-- Claim-side rating score of C3, written as a sum of independent
contributions. -/
def c3Rating (pc vr tv : ℚ) (pos : PricePos) : ℕ :=
  (if 5 < pc then 2 else if 2 < pc then 1 else 0) +
  (if 2 < vr then 1 else 0) +
  (if 5 < tv then 1 else 0) +
  (if pos = PricePos.low then 2 else 0)

/-- Claim-side risk score of C3. -/
def c3Risk (pos : PricePos) : ℕ := if pos = PricePos.high then 2 else 0

/-- Claim-side label of C3, with the four precedence-ordered cases. -/
def c3Label (rating risk : ℕ) : String :=
  if 4 ≤ rating ∧ risk ≤ 1 then "建议买入"
  else if 2 ≤ rating ∧ risk ≤ 2 then "可以关注"
  else if 3 ≤ risk then "注意风险"
  else "建议观望"

/-- C3: for every snapshot row scored by `analyze_trading_signals`, the
rating score is the sum of +2 if change > 5 else +1 if change > 2, +1 if
volume ratio > 2, +1 if turnover > 5, +2 if the price position is 低位; the
risk score is +2 if the price position is 高位; and the label is 建议买入 if
rating ≥ 4 and risk ≤ 1, else 可以关注 if rating ≥ 2 and risk ≤ 2, else
注意风险 if risk ≥ 3, else 建议观望, in that precedence order. -/
theorem analyze_trading_signals_spec (fetch : Except Unit (List ℚ)) (row : SignalRow) :
    analyze_trading_signal_row fetch row =
      ⟨get_price_position fetch row.price,
       c3Rating row.price_change row.volume_ratio row.turnover
         (get_price_position fetch row.price),
       c3Risk (get_price_position fetch row.price),
       c3Label
         (c3Rating row.price_change row.volume_ratio row.turnover
           (get_price_position fetch row.price))
         (c3Risk (get_price_position fetch row.price))⟩ := by
  unfold analyze_trading_signal_row c3Rating c3Risk c3Label
  rcases hp : get_price_position fetch row.price <;>
    by_cases h1 : 5 < row.price_change <;> by_cases h2 : 2 < row.price_change <;>
    by_cases h3 : 2 < row.volume_ratio <;> by_cases h4 : 5 < row.turnover <;>
    simp [h1, h2, h3, h4]

/-- C10: the risk score of `analyze_trading_signals` is always 0 or 2, the
注意风险 ("risk warning") label is never produced, and every emitted label
is one of 建议买入, 可以关注, 建议观望. -/
theorem analyze_trading_signals_no_risk_warning (fetch : Except Unit (List ℚ))
    (row : SignalRow) :
    ((analyze_trading_signal_row fetch row).risk_score = 0 ∨
      (analyze_trading_signal_row fetch row).risk_score = 2) ∧
    (analyze_trading_signal_row fetch row).final_advice ≠ "注意风险" ∧
    ((analyze_trading_signal_row fetch row).final_advice = "建议买入" ∨
     (analyze_trading_signal_row fetch row).final_advice = "可以关注" ∨
     (analyze_trading_signal_row fetch row).final_advice = "建议观望") := by
  unfold analyze_trading_signal_row
  rcases hp : get_price_position fetch row.price <;>
    by_cases h1 : 5 < row.price_change <;> by_cases h2 : 2 < row.price_change <;>
    by_cases h3 : 2 < row.volume_ratio <;> by_cases h4 : 5 < row.turnover <;>
    simp [h1, h2, h3, h4]

/-- Python `str.strip()`: remove leading and trailing whitespace. -/
def pyStrip (s : List Char) : List Char :=
  ((s.dropWhile Char.isWhitespace).reverse.dropWhile Char.isWhitespace).reverse

/-- Python `str.replace(c, '')` for a single character: remove every
occurrence. -/
def removeAll (ch : Char) (s : List Char) : List Char :=
  s.filter (fun x => x != ch)

/-- Numeric value of a digit string (most significant first). -/
def natOfDigits (ds : List Char) : ℕ :=
  ds.foldl (fun a c => 10 * a + (c.toNat - '0'.toNat)) 0

/-- Model of Python `float()` on plain decimal literals: an optional sign,
then digits with at most one decimal point and at least one digit
(`"1."` and `".5"` are accepted, `"."`, `""` and anything containing other
characters are rejected).  The exotic forms Python additionally accepts
(exponents, `inf`, `nan`, underscores) never occur in the money-flow
strings this parser receives and are not modelled. -/
def pyFloat? (s : List Char) : Option ℚ :=
  let sb : ℚ × List Char :=
    match s with
    | '-' :: rest => (-1, rest)
    | '+' :: rest => (1, rest)
    | _ => (1, s)
  let intPart := sb.2.takeWhile Char.isDigit
  let rest := sb.2.dropWhile Char.isDigit
  match rest with
  | [] => if intPart.isEmpty then none else some (sb.1 * natOfDigits intPart)
  | '.' :: fracPart =>
    if fracPart.all Char.isDigit && !(intPart.isEmpty && fracPart.isEmpty) then
      some (sb.1 * ((natOfDigits intPart : ℚ) +
        (natOfDigits fracPart : ℚ) / (10 : ℚ) ^ fracPart.length))
    else none
  | _ => none

/-- `convert_flow_value` (stock_screener.py:2027-2056) on a string input:
strip whitespace, drop thousands separators, capture and remove a leading
`'-'`, scale by 1e8 for a `亿` unit and by 1e4 for a `万` unit (the Python
code tests `'亿' in value` and removes every occurrence), take the bare
number otherwise, reapply the sign, and return 0 on any parse failure
(the `except` branch). -/
def convert_flow_value (s : List Char) : ℚ :=
  let v := removeAll ',' (pyStrip s)
  let is_negative : Bool := v.head? = some '-'
  let v₂ := if is_negative then v.tail else v
  let result? : Option ℚ :=
    if v₂.contains '亿' then (pyFloat? (removeAll '亿' v₂)).map (fun b => b * 100000000)
    else if v₂.contains '万' then (pyFloat? (removeAll '万' v₂)).map (fun b => b * 10000)
    else pyFloat? v₂
  match result? with
  | some r => if is_negative then -r else r
  | none => 0

/-- The characters allowed in the numeric body of a money-flow magnitude. -/
def decimalChars : List Char := ['0', '1', '2', '3', '4', '5', '6', '7', '8', '9', '.']

lemma decimal_char_facts (c : Char) (h : c ∈ decimalChars) :
    c.isWhitespace = false ∧ (c == ',') = false ∧ (c == '亿') = false ∧
      (c == '万') = false ∧ (c == '-') = false := by
  fin_cases h <;> exact ⟨rfl, rfl, rfl, rfl, rfl⟩

lemma dropWhile_eq_self_of (p : Char → Bool) (l : List Char)
    (h : ∀ c ∈ l, p c = false) : l.dropWhile p = l := by
  cases l with
  | nil => rfl
  | cons a t => simp [List.dropWhile_cons, h a (by simp)]

lemma pyStrip_eq_self (l : List Char) (h : ∀ c ∈ l, c.isWhitespace = false) :
    pyStrip l = l := by
  unfold pyStrip
  rw [dropWhile_eq_self_of _ _ h]
  rw [dropWhile_eq_self_of _ _ (fun c hc => h c (List.mem_reverse.mp hc))]
  exact List.reverse_reverse l

lemma removeAll_eq_self (ch : Char) (l : List Char) (h : ∀ c ∈ l, (c == ch) = false) :
    removeAll ch l = l := by
  unfold removeAll
  rw [List.filter_eq_self]
  intro a ha
  simp [bne, h a ha]

lemma removeAll_append_singleton (ch : Char) (l : List Char)
    (h : ∀ c ∈ l, (c == ch) = false) : removeAll ch (l ++ [ch]) = l := by
  unfold removeAll
  rw [List.filter_append]
  rw [show List.filter (fun x => x != ch) [ch] = [] by simp]
  rw [← removeAll]
  rw [removeAll_eq_self ch l h, List.append_nil]

lemma contains_append_singleton (l : List Char) (c : Char) :
    (l ++ [c]).contains c = true := by
  simp [List.contains]

lemma contains_eq_false (l : List Char) (c : Char) (h : ∀ x ∈ l, (x == c) = false) :
    l.contains c = false := by
  simp only [List.contains, List.elem_eq_mem, decide_eq_false_iff_not]
  intro hm
  have := h c hm
  simp at this

lemma head_not_dash (core : List Char) (ch : Char) (hch : (ch == '-') = false)
    (hc : ∀ c ∈ core, (c == '-') = false) : ¬ ((core ++ [ch]).head? = some '-') := by
  cases core with
  | nil =>
    simp only [List.nil_append, List.head?_cons, Option.some.injEq]
    intro he
    rw [he] at hch
    simp at hch
  | cons a t =>
    simp only [List.cons_append, List.head?_cons, Option.some.injEq]
    intro he
    have := hc a (by simp)
    rw [he] at this
    simp at this

lemma head_not_dash_of_mem (core : List Char)
    (hc : ∀ c ∈ core, (c == '-') = false) : ¬ (core.head? = some '-') := by
  cases core with
  | nil => simp
  | cons a t =>
    simp only [List.head?_cons, Option.some.injEq]
    intro he
    have := hc a (by simp)
    rw [he] at this
    simp at this

/-- C4: `convert_flow_value` strips separators and whitespace, captures and
removes a leading `'-'` before unit parsing and reapplies it to the result,
multiplies the numeric body by 1e8 for unit `亿` and by 1e4 for unit `万`,
returns the bare numeric value when there is no unit, and returns 0 on any
parse failure; in particular `parse "1.5亿" = 1.5e8`,
`parse "-2000万" = -2e7` and `parse "abc" = 0`.  The general clauses hold
for every decimal numeric body `core` that Python `float()` accepts. -/
theorem convert_flow_value_spec (core : List Char) (q : ℚ)
    (hq : pyFloat? core = some q) (hc : ∀ c ∈ core, c ∈ decimalChars) :
    convert_flow_value ['1', '.', '5', '亿'] = 150000000 ∧
    convert_flow_value ['-', '2', '0', '0', '0', '万'] = -20000000 ∧
    convert_flow_value ['a', 'b', 'c'] = 0 ∧
    convert_flow_value (core ++ ['亿']) = q * 100000000 ∧
    convert_flow_value ('-' :: (core ++ ['亿'])) = -(q * 100000000) ∧
    convert_flow_value (core ++ ['万']) = q * 10000 ∧
    convert_flow_value ('-' :: (core ++ ['万'])) = -(q * 10000) ∧
    convert_flow_value core = q ∧
    convert_flow_value ('-' :: core) = -q := by
  have hw : ∀ c ∈ core, c.isWhitespace = false := fun c h => (decimal_char_facts c (hc c h)).1
  have hcm : ∀ c ∈ core, (c == ',') = false := fun c h => (decimal_char_facts c (hc c h)).2.1
  have hy : ∀ c ∈ core, (c == '亿') = false := fun c h => (decimal_char_facts c (hc c h)).2.2.1
  have hwn : ∀ c ∈ core, (c == '万') = false :=
    fun c h => (decimal_char_facts c (hc c h)).2.2.2.1
  have hd : ∀ c ∈ core, (c == '-') = false :=
    fun c h => (decimal_char_facts c (hc c h)).2.2.2.2
  have memAppend : ∀ (P : Char → Bool), (∀ c ∈ core, P c = false) → ∀ (ch : Char),
      P ch = false → ∀ c ∈ core ++ [ch], P c = false := by
    intro P h ch hch c hm
    rcases List.mem_append.mp hm with h' | h'
    · exact h c h'
    · simp only [List.mem_singleton] at h'
      subst h'
      exact hch
  have memCons : ∀ (P : Char → Bool) (l : List Char), (∀ c ∈ l, P c = false) →
      P '-' = false → ∀ c ∈ '-' :: l, P c = false := by
    intro P l h hdsh c hm
    rcases List.mem_cons.mp hm with h' | h'
    · subst h'
      exact hdsh
    · exact h c h'
  refine ⟨?_, ?_, ?_, ?_, ?_, ?_, ?_, ?_, ?_⟩
  · have h : convert_flow_value ['1', '.', '5', '亿'] =
        (1 : ℚ) * (((1 : ℕ) : ℚ) + ((5 : ℕ) : ℚ) / (10 : ℚ) ^ 1) * 100000000 := rfl
    rw [h]; norm_num
  · have h : convert_flow_value ['-', '2', '0', '0', '0', '万'] =
        -((1 : ℚ) * ((2000 : ℕ) : ℚ) * 10000) := rfl
    rw [h]; norm_num
  · rfl
  · have hclean : removeAll ',' (pyStrip (core ++ ['亿'])) = core ++ ['亿'] := by
      rw [pyStrip_eq_self _ (memAppend _ hw '亿' rfl),
        removeAll_eq_self _ _ (memAppend _ hcm '亿' rfl)]
    have hhead : decide ((core ++ ['亿']).head? = some '-') = false :=
      decide_eq_false (head_not_dash core '亿' rfl hd)
    have hcon : (core ++ ['亿']).contains '亿' = true := contains_append_singleton _ _
    have hrem : removeAll '亿' (core ++ ['亿']) = core := removeAll_append_singleton _ _ hy
    simp only [convert_flow_value, hclean, hhead, Bool.false_eq_true, if_false, hcon, if_true,
      hrem, hq, Option.map_some']
  · have hclean : removeAll ',' (pyStrip ('-' :: (core ++ ['亿']))) = '-' :: (core ++ ['亿']) := by
      rw [pyStrip_eq_self _ (memCons _ _ (memAppend _ hw '亿' rfl) rfl),
        removeAll_eq_self _ _ (memCons _ _ (memAppend _ hcm '亿' rfl) rfl)]
    have hhead : decide (('-' :: (core ++ ['亿'])).head? = some '-') = true :=
      decide_eq_true (by simp)
    have hcon : (core ++ ['亿']).contains '亿' = true := contains_append_singleton _ _
    have hrem : removeAll '亿' (core ++ ['亿']) = core := removeAll_append_singleton _ _ hy
    simp only [convert_flow_value, hclean, hhead, if_true, List.tail_cons, hcon,
      hrem, hq, Option.map_some']
  · have hclean : removeAll ',' (pyStrip (core ++ ['万'])) = core ++ ['万'] := by
      rw [pyStrip_eq_self _ (memAppend _ hw '万' rfl),
        removeAll_eq_self _ _ (memAppend _ hcm '万' rfl)]
    have hhead : decide ((core ++ ['万']).head? = some '-') = false :=
      decide_eq_false (head_not_dash core '万' rfl hd)
    have hconY : (core ++ ['万']).contains '亿' = false :=
      contains_eq_false _ _ (memAppend _ hy '万' rfl)
    have hconW : (core ++ ['万']).contains '万' = true := contains_append_singleton _ _
    have hrem : removeAll '万' (core ++ ['万']) = core := removeAll_append_singleton _ _ hwn
    simp only [convert_flow_value, hclean, hhead, Bool.false_eq_true, if_false, hconY,
      hconW, if_true, hrem, hq, Option.map_some']
  · have hclean : removeAll ',' (pyStrip ('-' :: (core ++ ['万']))) = '-' :: (core ++ ['万']) := by
      rw [pyStrip_eq_self _ (memCons _ _ (memAppend _ hw '万' rfl) rfl),
        removeAll_eq_self _ _ (memCons _ _ (memAppend _ hcm '万' rfl) rfl)]
    have hhead : decide (('-' :: (core ++ ['万'])).head? = some '-') = true :=
      decide_eq_true (by simp)
    have hconY : (core ++ ['万']).contains '亿' = false :=
      contains_eq_false _ _ (memAppend _ hy '万' rfl)
    have hconW : (core ++ ['万']).contains '万' = true := contains_append_singleton _ _
    have hrem : removeAll '万' (core ++ ['万']) = core := removeAll_append_singleton _ _ hwn
    simp only [convert_flow_value, hclean, hhead, if_true, List.tail_cons, hconY,
      Bool.false_eq_true, if_false, hconW, hrem, hq, Option.map_some']
  · have hclean : removeAll ',' (pyStrip core) = core := by
      rw [pyStrip_eq_self _ hw, removeAll_eq_self _ _ hcm]
    have hhead : decide (core.head? = some '-') = false :=
      decide_eq_false (head_not_dash_of_mem core hd)
    have hconY : core.contains '亿' = false := contains_eq_false _ _ hy
    have hconW : core.contains '万' = false := contains_eq_false _ _ hwn
    simp only [convert_flow_value, hclean, hhead, Bool.false_eq_true, if_false, hconY,
      hconW, hq]
  · have hclean : removeAll ',' (pyStrip ('-' :: core)) = '-' :: core := by
      rw [pyStrip_eq_self _ (memCons _ _ hw rfl), removeAll_eq_self _ _ (memCons _ _ hcm rfl)]
    have hhead : decide (('-' :: core).head? = some '-') = true := decide_eq_true (by simp)
    have hconY : core.contains '亿' = false := contains_eq_false _ _ hy
    have hconW : core.contains '万' = false := contains_eq_false _ _ hwn
    simp only [convert_flow_value, hclean, hhead, if_true, List.tail_cons, hconY,
      Bool.false_eq_true, if_false, hconW, hq]

/-- Witness for `convert_flow_value_spec` with the concrete numeric body
`"2000"`. -/
theorem convert_flow_value_spec_witness :
    pyFloat? ['2', '0', '0', '0'] = some 2000 ∧
    (∀ c ∈ (['2', '0', '0', '0'] : List Char), c ∈ decimalChars) ∧
    (convert_flow_value ['1', '.', '5', '亿'] = 150000000 ∧
     convert_flow_value ['-', '2', '0', '0', '0', '万'] = -20000000 ∧
     convert_flow_value ['a', 'b', 'c'] = 0 ∧
     convert_flow_value (['2', '0', '0', '0'] ++ ['亿']) = 2000 * 100000000 ∧
     convert_flow_value ('-' :: (['2', '0', '0', '0'] ++ ['亿'])) = -(2000 * 100000000) ∧
     convert_flow_value (['2', '0', '0', '0'] ++ ['万']) = 2000 * 10000 ∧
     convert_flow_value ('-' :: (['2', '0', '0', '0'] ++ ['万'])) = -(2000 * 10000) ∧
     convert_flow_value ['2', '0', '0', '0'] = 2000 ∧
     convert_flow_value ('-' :: ['2', '0', '0', '0']) = -2000) := by
  have hpf : pyFloat? ['2', '0', '0', '0'] = some 2000 := by
    have h : pyFloat? ['2', '0', '0', '0'] = some ((1 : ℚ) * ((2000 : ℕ) : ℚ)) := rfl
    rw [h]
    norm_num
  exact ⟨hpf, by decide, convert_flow_value_spec ['2', '0', '0', '0'] 2000 hpf (by decide)⟩

deriving instance DecidableEq for Except

/-- One bar of a fetched daily history (the columns the screener reads:
收盘, 最高, 最低, 成交量, 涨跌幅). -/
structure Bar where
  close : ℚ
  high : ℚ
  low : ℚ
  volume : ℚ
  pct_change : ℚ
deriving DecidableEq

/-- One row of the real-time snapshot frame (`ak.stock_zh_a_spot_em()`),
restricted to the columns `filter_stocks` reads, together with the
responses the external data provider would give for this symbol's three
per-candidate fetches (daily history, intraday minute history, trailing
N-month history).  `.error ()` models a fetch that raises. -/
structure Snapshot where
  code : String
  name : String
  industry : String
  price : ℚ
  pct_change : ℚ
  turnover : ℚ
  volume_ratio : ℚ
  market_cap : ℚ
  amount : ℚ
  hist_daily : Except Unit (List Bar)
  hist_intraday_vol : Except Unit (List ℚ)
  hist_months_pct : Except Unit (List ℚ)
deriving DecidableEq

/-- The filter configuration read from the UI controls in `filter_stocks`
(stock_screener.py:1070-1198): spin-box range bounds, check-box flags and
the three count spinners. -/
structure FilterCriteria where
  turnover_min : ℚ
  turnover_max : ℚ
  price_change_min : ℚ
  price_change_max : ℚ
  volume_ratio_min : ℚ
  volume_ratio_max : ℚ
  price_min : ℚ
  price_max : ℚ
  market_cap_min : ℚ
  market_cap_max : ℚ
  remove_green_cb : Bool
  remove_limit_up_cb : Bool
  volume_increase_cb : Bool
  ma_alignment_cb : Bool
  macd_golden_cb : Bool
  kdj_golden_cb : Bool
  hot_stocks_n : ℕ
  top_n : ℕ
  limit_up_times : ℕ
  months : ℕ
deriving DecidableEq

/-- `Series.ewm(span, adjust=False).mean()` after the first element:
`e_i = (1-a)·e_(i-1) + a·x_i`. -/
def ewmNoAdjAux (al prev : ℚ) : List ℚ → List ℚ
  | [] => []
  | x :: xs =>
    let e := (1 - al) * prev + al * x
    e :: ewmNoAdjAux al e xs

/-- `Series.ewm(span, adjust=False).mean()`: `e_0 = x_0`, then exponential
smoothing with weight `al = 2/(span+1)`. -/
def ewmNoAdj (al : ℚ) : List ℚ → List ℚ
  | [] => []
  | x :: xs => x :: ewmNoAdjAux al x xs

/-- The MACD line `ewm(12) − ewm(26)` of `filter_stocks` /
`analyze_limit_up_stocks`. -/
def macdLine (closes : List ℚ) : List ℚ :=
  List.zipWith (fun x y => x - y) (ewmNoAdj (2 / 13) closes) (ewmNoAdj (2 / 27) closes)

/-- The MACD signal line `macd.ewm(span=9, adjust=False).mean()`. -/
def macdSignal (closes : List ℚ) : List ℚ :=
  ewmNoAdj (2 / 10) (macdLine closes)

/-- `series.iloc[-k]` of a list-valued pandas series: `none` when the
series is shorter than `k` (the callers below only reach that case where
the surrounding boolean is already fixed by an earlier conjunct; see the
comments at the call sites). -/
def ilocNeg (xs : List ℚ) (k : ℕ) : Option ℚ :=
  if k ≤ xs.length then xs[xs.length - k]? else none

/-- `series.iloc[-k]` for a series given as an index function of length
`L`. -/
def ilocNegF (f : ℕ → Option ℚ) (L k : ℕ) : Option ℚ :=
  if k ≤ L then f (L - k) else none

/-- `Series.rolling(n, min_periods=n).min()` at index `i`. -/
def rollMinO (n : ℕ) (xs : List ℚ) (i : ℕ) : Option ℚ :=
  if n ≤ i + 1 ∧ i < xs.length then some (listMin ((xs.take (i + 1)).drop (i + 1 - n)))
  else none

/-- `Series.rolling(n, min_periods=n).max()` at index `i`. -/
def rollMaxO (n : ℕ) (xs : List ℚ) (i : ℕ) : Option ℚ :=
  if n ≤ i + 1 ∧ i < xs.length then some (listMax ((xs.take (i + 1)).drop (i + 1 - n)))
  else none

/-- The KDJ raw stochastic value
`(close − low9) / (high9 − low9) × 100` at index `i`; `NaN` while the 9-bar
window is incomplete and when the window's range is zero (a `0/0` in
pandas, since `low ≤ close ≤ high` forces `close = low` there). -/
def rsvO (closes highs lows : List ℚ) (i : ℕ) : Option ℚ :=
  match rollMinO 9 lows i, rollMaxO 9 highs i, closes[i]? with
  | some lo, some hi, some c =>
    if hi - lo = 0 then none else some ((c - lo) / (hi - lo) * 100)
  | _, _, _ => none

/-- `Series.ewm(com).mean()` with the pandas defaults `adjust=True`,
`ignore_na=False`, over a possibly-`NaN` series `f`: the weighted mean
`Σ (1-a)^(t-j)·x_j / Σ (1-a)^(t-j)` over the defined entries `j ≤ t`,
`NaN` while no entry is defined. -/
def ewmAdjO (al : ℚ) (f : ℕ → Option ℚ) (t : ℕ) : Option ℚ :=
  let pts := (List.range (t + 1)).filterMap (fun j => (f j).map (fun v => ((1 - al) ^ (t - j), v)))
  if pts.isEmpty then none
  else some ((pts.map (fun p => p.1 * p.2)).sum / (pts.map (fun p => p.1)).sum)

/-- The K line `rsv.ewm(com=2).mean()` (`a = 1/(1+2) = 1/3`). -/
def kO (closes highs lows : List ℚ) (i : ℕ) : Option ℚ :=
  ewmAdjO (1 / 3) (rsvO closes highs lows) i

/-- The D line `k.ewm(com=2).mean()`. -/
def dO (closes highs lows : List ℚ) (i : ℕ) : Option ℚ :=
  ewmAdjO (1 / 3) (kO closes highs lows) i

/-- Technical sub-check 1 of `filter_stocks` (stock_screener.py:1133-1139):
instantaneous `ma5 > ma10 > ma20` at the last bar. -/
def ma_alignment_pass (closes : List ℚ) : Bool :=
  let L := closes.length
  optGt (maO 5 closes (L - 1)) (maO 10 closes (L - 1)) &&
    optGt (maO 10 closes (L - 1)) (maO 20 closes (L - 1))

/-- Technical sub-check 2 (stock_screener.py:1141-1148): MACD golden cross
`macd[-1] > signal[-1] and macd[-2] <= signal[-2]`.  On a 1-bar history
Python's `iloc[-2]` would raise, but it is never evaluated: the first
conjunct is then `0 > 0 = False` and `and` short-circuits; representing
the unreached access by `none` (which makes the second conjunct `false`)
therefore yields the same value. -/
def macd_golden_pass (closes : List ℚ) : Bool :=
  let m := macdLine closes
  let s := macdSignal closes
  optGt (ilocNeg m 1) (ilocNeg s 1) && optLe (ilocNeg m 2) (ilocNeg s 2)

/-- Technical sub-check 3 (stock_screener.py:1150-1158): KDJ golden cross
`k[-1] > d[-1] and k[-2] <= d[-2]`.  As for MACD, on a 1-bar history the
first conjunct is `NaN > NaN = False` and the `iloc[-2]` access is never
reached. -/
def kdj_golden_pass (closes highs lows : List ℚ) : Bool :=
  let L := closes.length
  optGt (kO closes highs lows (L - 1)) (dO closes highs lows (L - 1)) &&
    optLe (ilocNegF (kO closes highs lows) L 2) (ilocNegF (dO closes highs lows) L 2)

/-- The per-candidate body of the technical block
(stock_screener.py:1125-1160): fetch the daily history (a raised fetch
propagates — it is NOT caught inside `filter_stocks`); an empty frame skips
every sub-check and the candidate is appended; otherwise each enabled
sub-check that fails `continue`s past the append. -/
def tech_survives (c : FilterCriteria) (s : Snapshot) : Except Unit Bool :=
  match s.hist_daily with
  | .error e => .error e
  | .ok hist =>
    .ok (if hist.isEmpty then true
      else
        let closes := hist.map Bar.close
        if c.ma_alignment_cb && !(ma_alignment_pass closes) then false
        else if c.macd_golden_cb && !(macd_golden_pass closes) then false
        else if c.kdj_golden_cb &&
            !(kdj_golden_pass closes (hist.map Bar.high) (hist.map Bar.low)) then false
        else true)

/-- A sequential loop that keeps the rows whose predicate returns `ok true`
and propagates the first raised exception — the `for index, row in
df.iterrows(): ... df[df['代码'].isin(kept)]` pattern of `filter_stocks`
(codes are assumed unique, as they are in the snapshot frame). -/
def filterE {A : Type} (p : A → Except Unit Bool) : List A → Except Unit (List A)
  | [] => .ok []
  | x :: xs =>
    match p x with
    | .error e => .error e
    | .ok b =>
      match filterE p xs with
      | .error e => .error e
      | .ok rest => .ok (if b then x :: rest else rest)

/-- The per-candidate body of the intraday volume-increase block
(stock_screener.py:1105-1120): fetch the intraday minute frame (raises
propagate), keep the candidate iff the frame is non-empty, its last three
volumes exist and are strictly increasing. -/
def volume_increase_pass (s : Snapshot) : Except Unit Bool :=
  match s.hist_intraday_vol with
  | .error e => .error e
  | .ok vols =>
    .ok (if vols.isEmpty then false
      else
        let recent := vols.drop (vols.length - 3)
        recent.length == 3 &&
          match recent with
          | [a, b, c] => decide (a < b) && decide (b < c)
          | _ => false)

/-- Number of limit-up sessions in a fetched history:
`len(hist_data[hist_data['涨跌幅'] >= 9.5])`. -/
def count_limit_up (pcts : List ℚ) : ℕ :=
  (pcts.filter (fun p => decide ((9.5 : ℚ) ≤ p))).length

/-- The per-candidate body of the limit-up-count block
(stock_screener.py:1186-1196): fetch the trailing N-month daily history
(raises propagate), keep the candidate iff the frame is non-empty and the
number of sessions with 涨跌幅 ≥ 9.5 equals exactly the requested count. -/
def limit_up_count_pass (required : ℕ) (s : Snapshot) : Except Unit Bool :=
  match s.hist_months_pct with
  | .error e => .error e
  | .ok pcts =>
    .ok (if pcts.isEmpty then false
      else count_limit_up pcts == required)

/-- Stable descending insertion for `nlargest` (pandas `nlargest` keeps the
earlier row on ties — `keep='first'`). -/
def insertDescBy (key : Snapshot → ℚ) (x : Snapshot) : List Snapshot → List Snapshot
  | [] => [x]
  | y :: ys => if key y < key x then x :: y :: ys else y :: insertDescBy key x ys

/-- Stable descending sort by a key. -/
def sortDescBy (key : Snapshot → ℚ) (l : List Snapshot) : List Snapshot :=
  l.foldr (insertDescBy key) []

/-- `df.nlargest(n, column)`. -/
def nlargestBy (key : Snapshot → ℚ) (n : ℕ) (l : List Snapshot) : List Snapshot :=
  (sortDescBy key l).take n

/-- `Series.unique()`: first occurrences in encounter order. -/
def uniqueFirstAux (seen : List String) : List String → List String
  | [] => []
  | x :: xs =>
    if seen.contains x then uniqueFirstAux seen xs
    else x :: uniqueFirstAux (x :: seen) xs

/-- `df['所属行业'].unique()`. -/
def uniqueFirst (l : List String) : List String := uniqueFirstAux [] l

/-- The industry-leaders block (stock_screener.py:1169-1175): for every
industry in encounter order take the top `n` rows by market capitalisation
and keep the union.  (The Python sorts on a column named `'市值'`; the
snapshot frame's capitalisation column — `'总市值'` elsewhere in the same
function — is the field modelled here.) -/
def industry_leaders_stage (n : ℕ) (rows : List Snapshot) : List Snapshot :=
  let industries := uniqueFirst (rows.map Snapshot.industry)
  let leader_codes :=
    (industries.map (fun ind =>
      (nlargestBy Snapshot.market_cap n (rows.filter (fun s => s.industry == ind))).map
        Snapshot.code)).flatten
  rows.filter (fun s => leader_codes.contains s.code)

/-- The five range criteria of `filter_stocks` (stock_screener.py:1076-1096)
in their fixed order: turnover in `[min,max]`, percent change in
`[min,max]`, volume ratio `≥ min` and `≤ max` ONLY when `max > 0`, price in
`[min,max]`, market capitalisation (bounds scaled by 1e8) in `[min,max]`. -/
def range_stages (c : FilterCriteria) (snaps : List Snapshot) : List Snapshot :=
  let df := snaps.filter (fun s =>
    decide (c.turnover_min ≤ s.turnover) && decide (s.turnover ≤ c.turnover_max))
  let df := df.filter (fun s =>
    decide (c.price_change_min ≤ s.pct_change) && decide (s.pct_change ≤ c.price_change_max))
  let df := df.filter (fun s => decide (c.volume_ratio_min ≤ s.volume_ratio))
  let df := if 0 < c.volume_ratio_max then
      df.filter (fun s => decide (s.volume_ratio ≤ c.volume_ratio_max))
    else df
  let df := df.filter (fun s =>
    decide (c.price_min ≤ s.price) && decide (s.price ≤ c.price_max))
  let min_cap := c.market_cap_min * 100000000
  let max_cap := c.market_cap_max * 100000000
  df.filter (fun s => decide (min_cap ≤ s.market_cap) && decide (s.market_cap ≤ max_cap))

/-- `StockScreener.filter_stocks` (stock_screener.py:1070-1206) after a
successful snapshot fetch: the range block, the two check-box filters, the
optional intraday volume block, the optional technical block, hot stocks,
industry leaders and the optional limit-up-count block, in source order.
Any exception raised inside a per-candidate loop propagates to the single
function-level `except`. -/
def filter_stocks_core (c : FilterCriteria) (snaps : List Snapshot) :
    Except Unit (List Snapshot) :=
  let df := range_stages c snaps
  let df := if c.remove_green_cb then df.filter (fun s => decide (0 < s.pct_change)) else df
  let df := if c.remove_limit_up_cb then df.filter (fun s => decide (s.pct_change < 9.5))
    else df
  match (if c.volume_increase_cb then filterE volume_increase_pass df else .ok df) with
  | .error e => .error e
  | .ok df =>
    match (if c.ma_alignment_cb || c.macd_golden_cb || c.kdj_golden_cb then
        filterE (tech_survives c) df
      else .ok df) with
    | .error e => .error e
    | .ok df =>
      let df := if 0 < c.hot_stocks_n then nlargestBy Snapshot.amount c.hot_stocks_n df
        else df
      let df := if 0 < c.top_n then industry_leaders_stage c.top_n df else df
      (if 0 < c.limit_up_times ∧ 0 < c.months then
        filterE (limit_up_count_pass c.limit_up_times) df
      else .ok df)

/-- `filter_stocks`: the function-level `except` turns any propagated
per-candidate exception into `None`. -/
def filter_stocks (c : FilterCriteria) (snaps : List Snapshot) : Option (List Snapshot) :=
  match filter_stocks_core c snaps with
  | .ok df => some df
  | .error _ => none

lemma filterE_ok {A : Type} (p : A → Except Unit Bool) (l : List A) (out : List A)
    (h : filterE p l = .ok out) :
    out = l.filter (fun a => match p a with | .ok b => b | .error _ => false) := by
  induction l generalizing out with
  | nil =>
    simp only [filterE] at h
    cases h
    rfl
  | cons x xs ih =>
    unfold filterE at h
    cases hx : p x with
    | error e =>
      rw [hx] at h
      cases h
    | ok b =>
      rw [hx] at h
      cases hr : filterE p xs with
      | error e =>
        rw [hr] at h
        cases h
      | ok rest =>
        rw [hr] at h
        cases h
        rw [List.filter_cons]
        cases b with
        | true => simp [hx, ih rest hr]
        | false => simp [hx, ih rest hr]

lemma filterE_no_error {A : Type} (p : A → Except Unit Bool) (l : List A) (out : List A)
    (h : filterE p l = .ok out) : ∀ a ∈ l, ∃ b, p a = .ok b := by
  induction l generalizing out with
  | nil =>
    intro a ha
    cases ha
  | cons x xs ih =>
    unfold filterE at h
    cases hx : p x with
    | error e =>
      rw [hx] at h
      cases h
    | ok b =>
      rw [hx] at h
      cases hr : filterE p xs with
      | error e =>
        rw [hr] at h
        cases h
      | ok rest =>
        intro a ha
        rcases List.mem_cons.mp ha with h' | h'
        · subst h'
          exact ⟨b, hx⟩
        · exact ih rest hr a h'

lemma if_chain_not_or (a1 a2 a3 : Bool) :
    (if a1 then false else if a2 then false else if a3 then false else true) =
      !(a1 || a2 || a3) := by
  cases a1 <;> cases a2 <;> cases a3 <;> rfl

/-- Claim-side predicate of C5: some explicitly enabled technical sub-check
fails on the fetched history. -/
def tech_enabled_fails (c : FilterCriteria) (hist : List Bar) : Bool :=
  (c.ma_alignment_cb && !(ma_alignment_pass (hist.map Bar.close))) ||
  (c.macd_golden_cb && !(macd_golden_pass (hist.map Bar.close))) ||
  (c.kdj_golden_cb &&
    !(kdj_golden_pass (hist.map Bar.close) (hist.map Bar.high) (hist.map Bar.low)))

/-- Claim-side predicate of C5: the candidate is dropped, i.e. its
historical fetch succeeded non-empty and some enabled sub-check fails. -/
def tech_dropped_per_claim (c : FilterCriteria) (s : Snapshot) : Bool :=
  match s.hist_daily with
  | .ok hist => !hist.isEmpty && tech_enabled_fails c hist
  | .error _ => false

lemma tech_survives_eq (c : FilterCriteria) (s : Snapshot) (hist : List Bar)
    (hd : s.hist_daily = .ok hist) :
    tech_survives c s = .ok (if hist.isEmpty then true else !(tech_enabled_fails c hist)) := by
  unfold tech_survives
  rw [hd]
  cases he : hist.isEmpty with
  | true => simp [he]
  | false =>
    simp only [he, Bool.false_eq_true, if_false]
    exact congrArg Except.ok (if_chain_not_or _ _ _)

/-- C5: when the technical block completes (no per-candidate fetch raises),
its output keeps exactly the candidates that are not dropped, a candidate
is dropped iff its historical fetch is non-empty and some explicitly
enabled sub-check fails, and a candidate whose historical fetch is empty
always survives. -/
theorem technical_block_drop_iff (c : FilterCriteria) (rows out : List Snapshot)
    (h : filterE (tech_survives c) rows = .ok out) :
    out = rows.filter (fun s => !(tech_dropped_per_claim c s)) ∧
    (∀ s ∈ rows, (s ∉ out ↔ tech_dropped_per_claim c s = true)) ∧
    (∀ s ∈ rows, s.hist_daily = .ok [] → s ∈ out) := by
  have hout : out = rows.filter (fun s => !(tech_dropped_per_claim c s)) := by
    rw [filterE_ok _ _ _ h]
    apply List.filter_congr
    intro s hs
    obtain ⟨b, hb⟩ := filterE_no_error _ _ _ h s hs
    cases hd : s.hist_daily with
    | error e =>
      unfold tech_survives at hb
      rw [hd] at hb
      cases hb
    | ok hist =>
      rw [tech_survives_eq c s hist hd]
      simp only [tech_dropped_per_claim, hd]
      cases he : hist.isEmpty with
      | true => simp [he]
      | false => simp [he]
  refine ⟨hout, ?_, ?_⟩
  · intro s hs
    rw [hout]
    simp only [List.mem_filter, Bool.not_eq_true']
    constructor
    · intro hns
      by_contra hc
      exact hns ⟨hs, by simp [hc]⟩
    · intro hc hmem
      rw [hmem.2] at hc
      cases hc
  · intro s hs hd
    rw [hout]
    simp only [List.mem_filter]
    refine ⟨hs, ?_⟩
    simp [tech_dropped_per_claim, hd]

def c5Flags : FilterCriteria :=
  { turnover_min := 0, turnover_max := 100, price_change_min := -11, price_change_max := 11,
    volume_ratio_min := 0, volume_ratio_max := 0, price_min := 0, price_max := 10000,
    market_cap_min := 0, market_cap_max := 10000, remove_green_cb := false,
    remove_limit_up_cb := false, volume_increase_cb := false, ma_alignment_cb := true,
    macd_golden_cb := false, kdj_golden_cb := false, hot_stocks_n := 0, top_n := 0,
    limit_up_times := 0, months := 0 }

def c5RowEmpty : Snapshot :=
  { code := "000001", name := "a", industry := "i", price := 10, pct_change := 1,
    turnover := 1, volume_ratio := 1, market_cap := 100, amount := 100,
    hist_daily := .ok [], hist_intraday_vol := .ok [], hist_months_pct := .ok [] }

def c5RowShort : Snapshot :=
  { code := "000002", name := "b", industry := "i", price := 10, pct_change := 1,
    turnover := 1, volume_ratio := 1, market_cap := 100, amount := 100,
    hist_daily := .ok [{ close := 10, high := 11, low := 9, volume := 1, pct_change := 1 }],
    hist_intraday_vol := .ok [], hist_months_pct := .ok [] }

/-- Witness for `technical_block_drop_iff`: with only the MA check enabled,
an empty-fetch candidate survives and a 1-bar candidate (whose MA5 is
undefined, so the check fails) is dropped. -/
theorem technical_block_drop_iff_witness :
    filterE (tech_survives c5Flags) [c5RowEmpty, c5RowShort] = .ok [c5RowEmpty] ∧
    ([c5RowEmpty] = [c5RowEmpty, c5RowShort].filter
        (fun s => !(tech_dropped_per_claim c5Flags s)) ∧
      (∀ s ∈ [c5RowEmpty, c5RowShort],
        (s ∉ [c5RowEmpty] ↔ tech_dropped_per_claim c5Flags s = true)) ∧
      (∀ s ∈ [c5RowEmpty, c5RowShort], s.hist_daily = .ok [] → s ∈ [c5RowEmpty])) := by
  have h : filterE (tech_survives c5Flags) [c5RowEmpty, c5RowShort] = .ok [c5RowEmpty] := by
    rfl
  exact ⟨h, technical_block_drop_iff c5Flags [c5RowEmpty, c5RowShort] [c5RowEmpty] h⟩

/-- C6: when the limit-up-count filter is active (requested count > 0), the
completed block keeps exactly the candidates whose fetched history has a
number of sessions with 涨跌幅 ≥ 9.5 EQUAL to the requested count — not at
least the requested count.  (The non-empty-frame guard is subsumed: a
frame with `count = required > 0` sessions is necessarily non-empty.) -/
theorem limit_up_count_exact (required : ℕ) (rows out : List Snapshot)
    (hreq : 0 < required)
    (h : filterE (limit_up_count_pass required) rows = .ok out) :
    out = rows.filter (fun s =>
      match s.hist_months_pct with
      | .ok pcts => count_limit_up pcts == required
      | .error _ => false) := by
  rw [filterE_ok _ _ _ h]
  apply List.filter_congr
  intro s _
  cases hd : s.hist_months_pct with
  | error e =>
    unfold limit_up_count_pass
    rw [hd]
  | ok pcts =>
    unfold limit_up_count_pass
    rw [hd]
    cases pcts with
    | nil =>
      simp only [List.isEmpty_nil, if_true]
      have : count_limit_up [] = 0 := rfl
      rw [this]
      have : (0 == required) = false := by
        simp only [beq_eq_false_iff_ne, ne_eq]
        omega
      rw [this]
    | cons p ps => simp

def c6RowHit : Snapshot :=
  { code := "000003", name := "c", industry := "i", price := 10, pct_change := 10,
    turnover := 1, volume_ratio := 1, market_cap := 100, amount := 100,
    hist_daily := .ok [], hist_intraday_vol := .ok [],
    hist_months_pct := .ok [10, 1, 1] }

def c6RowMore : Snapshot :=
  { code := "000004", name := "d", industry := "i", price := 10, pct_change := 10,
    turnover := 1, volume_ratio := 1, market_cap := 100, amount := 100,
    hist_daily := .ok [], hist_intraday_vol := .ok [],
    hist_months_pct := .ok [10, 10] }

/-- Witness for `limit_up_count_exact`: with requested count 1, a candidate
with exactly one limit-up session is kept and a candidate with two (i.e.
"at least one") is dropped. -/
theorem limit_up_count_exact_witness :
    0 < 1 ∧
    filterE (limit_up_count_pass 1) [c6RowHit, c6RowMore] = .ok [c6RowHit] ∧
    [c6RowHit] = [c6RowHit, c6RowMore].filter (fun s =>
      match s.hist_months_pct with
      | .ok pcts => count_limit_up pcts == 1
      | .error _ => false) := by
  have h : filterE (limit_up_count_pass 1) [c6RowHit, c6RowMore] = .ok [c6RowHit] := by
    norm_num [filterE, limit_up_count_pass, count_limit_up, c6RowHit, c6RowMore]
  exact ⟨by decide, h, limit_up_count_exact 1 [c6RowHit, c6RowMore] [c6RowHit] (by decide) h⟩

lemma mem_range_stages_iff (c : FilterCriteria) (snaps : List Snapshot) (s : Snapshot) :
    s ∈ range_stages c snaps ↔
      s ∈ snaps ∧
      (c.turnover_min ≤ s.turnover ∧ s.turnover ≤ c.turnover_max) ∧
      (c.price_change_min ≤ s.pct_change ∧ s.pct_change ≤ c.price_change_max) ∧
      c.volume_ratio_min ≤ s.volume_ratio ∧
      (0 < c.volume_ratio_max → s.volume_ratio ≤ c.volume_ratio_max) ∧
      (c.price_min ≤ s.price ∧ s.price ≤ c.price_max) ∧
      (c.market_cap_min * 100000000 ≤ s.market_cap ∧
        s.market_cap ≤ c.market_cap_max * 100000000) := by
  unfold range_stages
  by_cases hv : 0 < c.volume_ratio_max
  · simp only [hv, if_true, List.mem_filter, Bool.and_eq_true, decide_eq_true_eq]
    tauto
  · simp only [hv, if_false, List.mem_filter, Bool.and_eq_true, decide_eq_true_eq]
    tauto

/-- C7 (amended): membership characterisation of the range block.  Only the
volume-ratio criterion treats a configured maximum ≤ 0 as "unbounded
above"; the turnover, percent-change, price and market-capitalisation upper
bounds are applied unconditionally (so a maximum ≤ 0 there excludes
snapshots above it rather than retaining them). -/
theorem range_stages_mem (c : FilterCriteria) (snaps : List Snapshot) (s : Snapshot) :
    s ∈ range_stages c snaps ↔
      s ∈ snaps ∧
      (c.turnover_min ≤ s.turnover ∧ s.turnover ≤ c.turnover_max) ∧
      (c.price_change_min ≤ s.pct_change ∧ s.pct_change ≤ c.price_change_max) ∧
      c.volume_ratio_min ≤ s.volume_ratio ∧
      (0 < c.volume_ratio_max → s.volume_ratio ≤ c.volume_ratio_max) ∧
      (c.price_min ≤ s.price ∧ s.price ≤ c.price_max) ∧
      (c.market_cap_min * 100000000 ≤ s.market_cap ∧
        s.market_cap ≤ c.market_cap_max * 100000000) :=
  mem_range_stages_iff c snaps s

/-- The range semantics asserted by claim C7 for EVERY range criterion: the
lower bound always applies, the upper bound applies only when the
configured maximum is positive. -/
def in_ranges_per_claim (c : FilterCriteria) (s : Snapshot) : Prop :=
  (c.turnover_min ≤ s.turnover ∧ (c.turnover_max ≤ 0 ∨ s.turnover ≤ c.turnover_max)) ∧
  (c.price_change_min ≤ s.pct_change ∧
    (c.price_change_max ≤ 0 ∨ s.pct_change ≤ c.price_change_max)) ∧
  (c.volume_ratio_min ≤ s.volume_ratio ∧
    (c.volume_ratio_max ≤ 0 ∨ s.volume_ratio ≤ c.volume_ratio_max)) ∧
  (c.price_min ≤ s.price ∧ (c.price_max ≤ 0 ∨ s.price ≤ c.price_max)) ∧
  (c.market_cap_min * 100000000 ≤ s.market_cap ∧
    (c.market_cap_max ≤ 0 ∨ s.market_cap ≤ c.market_cap_max * 100000000))

def c7Crit : FilterCriteria :=
  { turnover_min := 0, turnover_max := 0, price_change_min := -11, price_change_max := 11,
    volume_ratio_min := 0, volume_ratio_max := 100, price_min := 0, price_max := 10000,
    market_cap_min := 0, market_cap_max := 10000, remove_green_cb := false,
    remove_limit_up_cb := false, volume_increase_cb := false, ma_alignment_cb := false,
    macd_golden_cb := false, kdj_golden_cb := false, hot_stocks_n := 0, top_n := 0,
    limit_up_times := 0, months := 0 }

def c7Snap : Snapshot :=
  { code := "000005", name := "e", industry := "i", price := 10, pct_change := 1,
    turnover := 5, volume_ratio := 1, market_cap := 100000000, amount := 100,
    hist_daily := .ok [], hist_intraday_vol := .ok [], hist_months_pct := .ok [] }

/-- C7 counterexample: a snapshot that satisfies every range under the
claim's "max ≤ 0 means unbounded above" reading (its turnover 5 exceeds the
configured turnover maximum 0) is nonetheless dropped by the pipeline — the
turnover upper bound is applied unconditionally. -/
theorem c7_counterexample :
    in_ranges_per_claim c7Crit c7Snap ∧ c7Crit.turnover_max ≤ 0 ∧
      c7Crit.turnover_max < c7Snap.turnover ∧
      filter_stocks c7Crit [c7Snap] = some [] := by
  refine ⟨?_, by norm_num [c7Crit], by norm_num [c7Crit, c7Snap], ?_⟩
  · norm_num [in_ranges_per_claim, c7Crit, c7Snap]
  · norm_num [filter_stocks, filter_stocks_core, range_stages, c7Crit, c7Snap,
      filterE, industry_leaders_stage, nlargestBy, sortDescBy, uniqueFirst, uniqueFirstAux]

lemma nlargestBy_nil (key : Snapshot → ℚ) (n : ℕ) : nlargestBy key n [] = [] := by
  unfold nlargestBy sortDescBy
  simp

/-- C8 (amended): configuring min > max on the turnover, percent-change,
price or market-capitalisation range — or on the volume-ratio range when
its maximum is positive — makes the pipeline return an empty result set,
deterministically.  (A volume-ratio min > max with max ≤ 0 does NOT empty
the result: the upper bound is then skipped entirely; see the
counterexample.) -/
theorem filter_stocks_min_gt_max (c : FilterCriteria) (snaps : List Snapshot)
    (h : c.turnover_max < c.turnover_min ∨ c.price_change_max < c.price_change_min ∨
      c.price_max < c.price_min ∨ c.market_cap_max < c.market_cap_min ∨
      (c.volume_ratio_max < c.volume_ratio_min ∧ 0 < c.volume_ratio_max)) :
    filter_stocks c snaps = some [] := by
  have hrange : range_stages c snaps = [] := by
    rw [List.eq_nil_iff_forall_not_mem]
    intro s hs
    rw [mem_range_stages_iff] at hs
    obtain ⟨-, ⟨ht1, ht2⟩, ⟨hp1, hp2⟩, hv1, hv2, ⟨hpr1, hpr2⟩, ⟨hm1, hm2⟩⟩ := hs
    rcases h with h | h | h | h | ⟨h, hpos⟩
    · linarith
    · linarith
    · linarith
    · have hC := mul_lt_mul_of_pos_right h (show (0 : ℚ) < 100000000 by norm_num)
      linarith
    · have := hv2 hpos
      linarith
  unfold filter_stocks filter_stocks_core
  rw [hrange]
  simp only [List.filter_nil, ite_self, nlargestBy_nil,
    show filterE volume_increase_pass ([] : List Snapshot) = .ok [] from rfl,
    show filterE (tech_survives c) ([] : List Snapshot) = .ok [] from rfl,
    show filterE (limit_up_count_pass c.limit_up_times) ([] : List Snapshot) = .ok [] from rfl,
    show industry_leaders_stage c.top_n [] = [] from rfl]

def c8Crit : FilterCriteria :=
  { turnover_min := 1, turnover_max := 0, price_change_min := -11, price_change_max := 11,
    volume_ratio_min := 0, volume_ratio_max := 100, price_min := 0, price_max := 10000,
    market_cap_min := 0, market_cap_max := 10000, remove_green_cb := false,
    remove_limit_up_cb := false, volume_increase_cb := false, ma_alignment_cb := false,
    macd_golden_cb := false, kdj_golden_cb := false, hot_stocks_n := 0, top_n := 0,
    limit_up_times := 0, months := 0 }

def c8Snap : Snapshot :=
  { code := "000006", name := "f", industry := "i", price := 10, pct_change := 1,
    turnover := 1, volume_ratio := 1, market_cap := 100000000, amount := 100,
    hist_daily := .ok [], hist_intraday_vol := .ok [], hist_months_pct := .ok [] }

/-- Witness for `filter_stocks_min_gt_max` at a concrete criteria record
with turnover min 1 > max 0. -/
theorem filter_stocks_min_gt_max_witness :
    c8Crit.turnover_max < c8Crit.turnover_min ∧ filter_stocks c8Crit [c8Snap] = some [] := by
  have h : c8Crit.turnover_max < c8Crit.turnover_min := by norm_num [c8Crit]
  exact ⟨h, filter_stocks_min_gt_max c8Crit [c8Snap] (Or.inl h)⟩

def c8vrCrit : FilterCriteria :=
  { turnover_min := 0, turnover_max := 100, price_change_min := -11, price_change_max := 11,
    volume_ratio_min := 5, volume_ratio_max := 0, price_min := 0, price_max := 10000,
    market_cap_min := 0, market_cap_max := 10000, remove_green_cb := false,
    remove_limit_up_cb := false, volume_increase_cb := false, ma_alignment_cb := false,
    macd_golden_cb := false, kdj_golden_cb := false, hot_stocks_n := 0, top_n := 0,
    limit_up_times := 0, months := 0 }

def c8vrSnap : Snapshot :=
  { code := "000007", name := "g", industry := "i", price := 10, pct_change := 1,
    turnover := 1, volume_ratio := 10, market_cap := 100000000, amount := 100,
    hist_daily := .ok [], hist_intraday_vol := .ok [], hist_months_pct := .ok [] }

/-- C8 counterexample: volume-ratio min 5 > max 0, yet the pipeline returns
a NON-empty result — the volume-ratio upper bound is skipped when the
configured maximum is ≤ 0, so min > max does not short-circuit to the empty
set for this range. -/
theorem c8_counterexample :
    c8vrCrit.volume_ratio_max < c8vrCrit.volume_ratio_min ∧
      filter_stocks c8vrCrit [c8vrSnap] = some [c8vrSnap] := by
  constructor
  · norm_num [c8vrCrit]
  · norm_num [filter_stocks, filter_stocks_core, range_stages, filterE,
      industry_leaders_stage, nlargestBy, sortDescBy, uniqueFirst, uniqueFirstAux,
      c8vrCrit, c8vrSnap]

/-- One row of the limit-up frame consumed by `analyze_limit_up_stocks`
(stock_screener.py:1446-1757), together with the responses of its per-row
collaborators: the 30-day history fetch (`.error ()` models the fetch
raising — it sits INSIDE the per-row `try`), the industry net main inflow
(`none` when the industry lookup fails or the flow frame is empty; that
lookup is wrapped in its own inner `try/except: pass`), and the related
news count. -/
structure LimitUpStockRow where
  code : String
  name : String
  price : ℚ
  pct_change : ℚ
  volume_ratio : ℚ
  turnover : ℚ
  hist : Except Unit (List Bar)
  industry_flow : Option ℚ
  news_count : ℕ
deriving DecidableEq

/-- The analysis record appended per limit-up stock (the scoring fields of
the result dict at stock_screener.py:1741-1753; the free-text feature and
reason strings are display-only concatenations of the same boolean tests
and are not modelled). -/
structure LimitUpResult where
  code : String
  name : String
  price : ℚ
  pct_change : ℚ
  volume_ratio : ℚ
  turnover : ℚ
  trend_prediction : String
  rating : String
  rating_score : ℕ
  risk_score : ℕ
deriving DecidableEq

/-- Consecutive limit-up streak (stock_screener.py:1491-1496): count
sessions backward from the most recent while 涨跌幅 ≥ 9.5, stop at the
first non-qualifying session. -/
def consecutive_limit_up (hist : List Bar) : ℕ :=
  (hist.reverse.takeWhile (fun b => decide ((9.5 : ℚ) ≤ b.pct_change))).length

/-- The `delta.where(delta > 0, 0)` gain series of the RSI computation
(stock_screener.py:1472-1473): positive close delta, `0` elsewhere — also
at index 0, where `diff()` is `NaN` and `NaN > 0` is `False`. -/
def gainAt (closes : List ℚ) (j : ℕ) : ℚ :=
  if j = 0 then 0
  else
    let cj := closes.getD j 0
    let cp := closes.getD (j - 1) 0
    if cp < cj then cj - cp else 0

/-- The `(-delta).where(delta < 0, 0)` loss series
(stock_screener.py:1474). -/
def lossAt (closes : List ℚ) (j : ℕ) : ℚ :=
  if j = 0 then 0
  else
    let cj := closes.getD j 0
    let cp := closes.getD (j - 1) 0
    if cj < cp then cp - cj else 0

/-- RSI(14) at index `i` (stock_screener.py:1472-1476): `NaN` while the
14-bar rolling window is incomplete; with `loss = 0` numpy gives
`rs = inf` hence `rsi = 100` when `gain > 0`, and `rs = 0/0 = NaN` hence
`NaN` when the window is completely flat. -/
def rsiO (closes : List ℚ) (i : ℕ) : Option ℚ :=
  if i + 1 < 14 ∨ closes.length ≤ i then none
  else
    let g := ((List.range' (i - 13) 14).map (gainAt closes)).sum / 14
    let l := ((List.range' (i - 13) 14).map (lossAt closes)).sum / 14
    if l = 0 then (if g = 0 then none else some 100)
    else some (100 - 100 / (1 + g / l))

/-- The 5-day MA5 slope test of rating factor 3
(stock_screener.py:1642-1643): `(ma5[-1] - ma5[-5]) / ma5[-5] * 100 > 2`.
Only reached under the `ma5 > ma10 > ma20` guard, which forces a history of
at least 20 bars, so both averages are defined there; when `ma5[-5] = 0`
numpy float division yields `±inf`/`NaN` and the `> 2` test is then true
exactly when the numerator is positive. -/
def ma5_slope_gt2 (closes : List ℚ) : Bool :=
  let L := closes.length
  match maO 5 closes (L - 1), maO 5 closes (L - 5) with
  | some a, some b => if b = 0 then decide (0 < a - b) else decide (2 < (a - b) / b * 100)
  | _, _ => false

/-- `StockScreener.predict_trend` (stock_screener.py:1765-1814) on a
non-empty history: a four-part trend score (MA alignment, RSI zone, MACD
side, volume vs mean) classified into four labels. -/
def predict_trend (hist : List Bar) : String :=
  let closes := hist.map Bar.close
  let vols := hist.map Bar.volume
  let L := closes.length
  let m := macdLine closes
  let sg := macdSignal closes
  let vol_mean := vols.sum / vols.length
  let trend_score : ℤ :=
    (if optGt (maO 5 closes (L - 1)) (maO 10 closes (L - 1)) &&
        optGt (maO 10 closes (L - 1)) (maO 20 closes (L - 1)) then 2
     else if optGt (maO 5 closes (L - 1)) (maO 10 closes (L - 1)) then 1
     else 0) +
    (match rsiO closes (L - 1) with
     | some x => if 30 ≤ x ∧ x ≤ 70 then 1 else if 70 < x then -1 else 0
     | none => 0) +
    (if optGt (ilocNeg m 1) (ilocNeg sg 1) then 1
     else if optLt (ilocNeg m 1) (ilocNeg sg 1) then -1
     else 0) +
    (if optGt (ilocNeg vols 1) (some vol_mean) then 1 else 0)
  if 3 ≤ trend_score then "强势上涨"
  else if 1 ≤ trend_score then "震荡上涨"
  else if -1 ≤ trend_score then "震荡整理"
  else "可能回调"

/-- Rating factor 1 (stock_screener.py:1620-1627): the consecutive limit-up
streak.  `rs` is the `(rating_score, risk_score)` accumulator. -/
def luc_factor (luc : ℕ) (rs : ℕ × ℕ) : ℕ × ℕ :=
  if 3 ≤ luc then (rs.1 + 2, rs.2 + 1)
  else if luc = 2 then (rs.1 + 1, rs.2) else rs

/-- Rating factor 2 (stock_screener.py:1629-1638): the snapshot volume
ratio. -/
def volume_ratio_factor (vr : ℚ) (rs : ℕ × ℕ) : ℕ × ℕ :=
  if 3 < vr then (rs.1 + 2, rs.2)
  else if 2 < vr then (rs.1 + 1, rs.2)
  else if vr < 0.8 then (rs.1, rs.2 + 1) else rs

/-- Rating factor 3 (stock_screener.py:1640-1651): MA alignment with the
5-day MA5 slope refinement. -/
def ma_factor (closes : List ℚ) (rs : ℕ × ℕ) : ℕ × ℕ :=
  let L := closes.length
  if optGt (maO 5 closes (L - 1)) (maO 10 closes (L - 1)) &&
      optGt (maO 10 closes (L - 1)) (maO 20 closes (L - 1)) then
    (if ma5_slope_gt2 closes then (rs.1 + 2, rs.2) else (rs.1 + 1, rs.2))
  else if optLt (maO 5 closes (L - 1)) (maO 10 closes (L - 1)) &&
      optLt (maO 10 closes (L - 1)) (maO 20 closes (L - 1)) then
    (rs.1, rs.2 + 1)
  else rs

/-- Rating factor 4 (stock_screener.py:1653-1662): the RSI zone (each
comparison with an undefined RSI is `False`). -/
def rsi_factor (closes : List ℚ) (rs : ℕ × ℕ) : ℕ × ℕ :=
  match rsiO closes (closes.length - 1) with
  | some x => if 50 < x ∧ x < 70 then (rs.1 + 1, rs.2)
      else if 80 < x then (rs.1, rs.2 + 2)
      else if x < 30 then (rs.1, rs.2 + 1) else rs
  | none => rs

/-- Rating factor 5 (stock_screener.py:1664-1673): MACD golden cross /
above-zero / death cross. -/
def macd_factor (closes : List ℚ) (rs : ℕ × ℕ) : ℕ × ℕ :=
  let m := macdLine closes
  let sg := macdSignal closes
  if optGt (ilocNeg m 1) (ilocNeg sg 1) && optLe (ilocNeg m 2) (ilocNeg sg 2) then
    (rs.1 + 2, rs.2)
  else if optGt (ilocNeg m 1) (some 0) && optGt (ilocNeg sg 1) (some 0) then
    (rs.1 + 1, rs.2)
  else if optLt (ilocNeg m 1) (ilocNeg sg 1) && optLe (ilocNeg sg 2) (ilocNeg m 2) then
    (rs.1, rs.2 + 1)
  else rs

/-- Rating factor 6 (stock_screener.py:1675-1694): the industry net main
inflow; `none` models the inner `try/except: pass` or an empty flow frame,
where no score is added. -/
def industry_flow_factor (flow : Option ℚ) (rs : ℕ × ℕ) : ℕ × ℕ :=
  match flow with
  | some fv => if 100000000 < fv then (rs.1 + 2, rs.2)
      else if 0 < fv then (rs.1 + 1, rs.2)
      else if fv < -100000000 then (rs.1, rs.2 + 2)
      else if fv < 0 then (rs.1, rs.2 + 1) else rs
  | none => rs

/-- The price position of factor 7 (stock_screener.py:1604-1613): position
of the latest close inside the window's range, with the explicit 50 default
when the range or the minimum is zero. -/
def limit_up_position (closes : List ℚ) : ℚ :=
  let price_max := listMax closes
  let price_min := listMin closes
  let price_range := price_max - price_min
  if price_range = 0 ∨ price_min = 0 then 50
  else ((ilocNeg closes 1).getD 0 - price_min) / price_range * 100

/-- Rating factor 7 (stock_screener.py:1696-1702): the price position. -/
def position_factor (closes : List ℚ) (rs : ℕ × ℕ) : ℕ × ℕ :=
  if limit_up_position closes < 30 then (rs.1 + 2, rs.2)
  else if 70 < limit_up_position closes then (rs.1, rs.2 + 2) else rs

/-- Rating factor 8 (stock_screener.py:1704-1714): the latest volume
against the window mean. -/
def volume_factor (vols : List ℚ) (rs : ℕ × ℕ) : ℕ × ℕ :=
  let vol_mean := vols.sum / vols.length
  match ilocNeg vols 1 with
  | some lv => if vol_mean * 3 < lv then (rs.1 + 2, rs.2)
      else if vol_mean * 2 < lv then (rs.1 + 1, rs.2)
      else if lv < vol_mean * 0.5 then (rs.1, rs.2 + 1) else rs
  | none => rs

/-- Rating factor 9 (stock_screener.py:1716-1725): the snapshot turnover
rate. -/
def turnover_factor (tv : ℚ) (rs : ℕ × ℕ) : ℕ × ℕ :=
  if 15 < tv then (rs.1 + 2, rs.2)
  else if 10 < tv then (rs.1 + 1, rs.2)
  else if tv < 3 then (rs.1, rs.2 + 1) else rs

/-- The five-way rating label (stock_screener.py:1727-1738). -/
def limit_up_rating_label (rs : ℕ × ℕ) : String :=
  if 8 ≤ rs.1 ∧ rs.2 ≤ 2 then "强烈推荐"
  else if 6 ≤ rs.1 ∧ rs.2 ≤ 3 then "建议关注"
  else if 5 ≤ rs.2 then "强烈风险"
  else if 3 ≤ rs.2 then "注意风险"
  else "中性"

/-- The per-row body of `analyze_limit_up_stocks`
(stock_screener.py:1446-1753): fetch the 30-day history (a raise
propagates to the per-row `except`), skip the row when the frame is empty
(`continue`), otherwise apply the streak count and the nine sequential
rating/risk factors in source order and attach the rating label and the
trend prediction. -/
def process_limit_up_row (r : LimitUpStockRow) : Except Unit (Option LimitUpResult) :=
  match r.hist with
  | .error e => .error e
  | .ok hist =>
    .ok (if hist.isEmpty then none
      else
        let closes := hist.map Bar.close
        let vols := hist.map Bar.volume
        let rs := luc_factor (consecutive_limit_up hist) (0, 0)
        let rs := volume_ratio_factor r.volume_ratio rs
        let rs := ma_factor closes rs
        let rs := rsi_factor closes rs
        let rs := macd_factor closes rs
        let rs := industry_flow_factor r.industry_flow rs
        let rs := position_factor closes rs
        let rs := volume_factor vols rs
        let rs := turnover_factor r.turnover rs
        some { code := r.code, name := r.name, price := r.price, pct_change := r.pct_change,
               volume_ratio := r.volume_ratio, turnover := r.turnover,
               trend_prediction := predict_trend hist,
               rating := limit_up_rating_label rs,
               rating_score := rs.1, risk_score := rs.2 })

/-- The batch loop of `analyze_limit_up_stocks`
(stock_screener.py:1446/1755-1757): each row's processing is wrapped in its
own `try/except ... continue`, so a raised per-row failure (and an empty
frame, via `continue`) skips only that row. -/
def analyze_limit_up_loop : List LimitUpStockRow → List LimitUpResult
  | [] => []
  | r :: rest =>
    match process_limit_up_row r with
    | .ok (some res) => res :: analyze_limit_up_loop rest
    | .ok none => analyze_limit_up_loop rest
    | .error _ => analyze_limit_up_loop rest

/-- C9 (amended): in the limit-up analysis loop a per-instrument failure is
caught at the instrument boundary — removing a failing row does not change
the batch output, so exactly that instrument is skipped and the batch never
fails wholesale (the loop is a total function).  The filter pipeline does
NOT have this property; see the counterexample. -/
theorem limit_up_loop_skips_failures (pre post : List LimitUpStockRow)
    (r : LimitUpStockRow) (h : process_limit_up_row r = .error ()) :
    analyze_limit_up_loop (pre ++ r :: post) = analyze_limit_up_loop (pre ++ post) := by
  induction pre with
  | nil =>
    simp only [List.nil_append]
    conv_lhs => rw [analyze_limit_up_loop]
    rw [h]
  | cons x xs ih =>
    simp only [List.cons_append]
    conv_lhs => rw [analyze_limit_up_loop]
    conv_rhs => rw [analyze_limit_up_loop]
    rw [ih]

def c9LoopGood : LimitUpStockRow :=
  { code := "000008", name := "h", price := 11, pct_change := 10, volume_ratio := 2,
    turnover := 6,
    hist := .ok [{ close := 11, high := 11, low := 10, volume := 5, pct_change := 10 }],
    industry_flow := some 1000, news_count := 1 }

def c9LoopBad : LimitUpStockRow :=
  { code := "000009", name := "k", price := 11, pct_change := 10, volume_ratio := 2,
    turnover := 6, hist := .error (), industry_flow := none, news_count := 0 }

/-- Witness for `limit_up_loop_skips_failures`: a row whose history fetch
raises is skipped while its neighbour is processed normally. -/
theorem limit_up_loop_skips_failures_witness :
    process_limit_up_row c9LoopBad = .error () ∧
    analyze_limit_up_loop ([c9LoopGood] ++ c9LoopBad :: []) =
      analyze_limit_up_loop ([c9LoopGood] ++ []) :=
  ⟨rfl, limit_up_loop_skips_failures [c9LoopGood] [] c9LoopBad rfl⟩

def c9Crit : FilterCriteria :=
  { turnover_min := 0, turnover_max := 100, price_change_min := -11, price_change_max := 11,
    volume_ratio_min := 0, volume_ratio_max := 100, price_min := 0, price_max := 10000,
    market_cap_min := 0, market_cap_max := 10000, remove_green_cb := false,
    remove_limit_up_cb := false, volume_increase_cb := false, ma_alignment_cb := true,
    macd_golden_cb := false, kdj_golden_cb := false, hot_stocks_n := 0, top_n := 0,
    limit_up_times := 0, months := 0 }

def c9Good : Snapshot :=
  { code := "000010", name := "m", industry := "i", price := 10, pct_change := 1,
    turnover := 1, volume_ratio := 1, market_cap := 100000000, amount := 100,
    hist_daily := .ok [], hist_intraday_vol := .ok [], hist_months_pct := .ok [] }

def c9Bad : Snapshot :=
  { code := "000011", name := "n", industry := "i", price := 10, pct_change := 1,
    turnover := 1, volume_ratio := 1, market_cap := 100000000, amount := 100,
    hist_daily := .error (), hist_intraday_vol := .ok [], hist_months_pct := .ok [] }

/-- C9 counterexample: in `filter_stocks` a per-instrument failure is NOT
caught at the instrument boundary.  The passing candidate alone survives
the pipeline, but adding one candidate whose historical fetch raises makes
the whole filter return `None` — the batch fails wholesale instead of
skipping only the failing instrument. -/
theorem c9_counterexample :
    c9Bad.hist_daily = .error () ∧
    filter_stocks c9Crit [c9Good] = some [c9Good] ∧
    filter_stocks c9Crit [c9Good, c9Bad] = none := by
  refine ⟨rfl, ?_, ?_⟩
  · norm_num [filter_stocks, filter_stocks_core, range_stages, filterE, tech_survives,
      industry_leaders_stage, nlargestBy, sortDescBy, uniqueFirst, uniqueFirstAux,
      insertDescBy, c9Crit, c9Good]
  · norm_num [filter_stocks, filter_stocks_core, range_stages, filterE, tech_survives,
      industry_leaders_stage, nlargestBy, sortDescBy, uniqueFirst, uniqueFirstAux,
      insertDescBy, c9Crit, c9Good, c9Bad]
